import Mathlib

/-!
Verification development for the catalog entity model in
`src/music_objects.py` (classes MusicObject, Artist, Album, Song).

Entities in the source are Python dicts.  Each constructor writes a fixed
set of keys, so every Artist dict has exactly the keys
id/name/kind/full/songs/albums, every Album dict id/name/kind/full/artist/songs
and every Song dict id/name/kind/full/artist/album/time.  We model the
three kinds as a mutual inductive family with exactly those fields, and
the nested lists as dedicated list types inside the same mutual block so
that all functions below are plain structural recursions.
-/

namespace GPMusic

/-- Python exception values that the constructors in `music_objects.py`
can raise: `KeyError` (missing dict key, carrying the key), `IndexError`
(subscript `[0]` of an empty string/list) and `TypeError` (subscript of a
non-subscriptable value). -/
inductive PyErr where
  | keyError (key : String)
  | indexError
  | typeError
deriving DecidableEq

mutual
/-- The dict built by `Artist.__init__`: keys id, name, kind, full
(written by `MusicObject.__init__`) plus songs and albums. -/
inductive Artist where
  | mk (id name kind : String) (full : Bool) (songs : SongL) (albums : AlbumL)

/-- The dict built by `Album.__init__`: keys id, name, kind, full
plus artist and songs. -/
inductive Album where
  | mk (id name kind : String) (full : Bool) (artist : Artist) (songs : SongL)

/-- The dict built by `Song.__init__`: keys id, name, kind, full
plus artist, album and time. -/
inductive Song where
  | mk (id name kind : String) (full : Bool) (artist : Artist) (album : Album)
       (time : String)

/-- A Python list of Song dicts. -/
inductive SongL where
  | nil
  | cons (head : Song) (tail : SongL)

/-- A Python list of Album dicts. -/
inductive AlbumL where
  | nil
  | cons (head : Album) (tail : AlbumL)
end

def Artist.id : Artist → String
  | .mk i _ _ _ _ _ => i

def Artist.name : Artist → String
  | .mk _ n _ _ _ _ => n

def Artist.kind : Artist → String
  | .mk _ _ k _ _ _ => k

def Artist.full : Artist → Bool
  | .mk _ _ _ f _ _ => f

def Artist.songs : Artist → SongL
  | .mk _ _ _ _ s _ => s

def Artist.albums : Artist → AlbumL
  | .mk _ _ _ _ _ a => a

def Album.id : Album → String
  | .mk i _ _ _ _ _ => i

def Album.name : Album → String
  | .mk _ n _ _ _ _ => n

def Album.kind : Album → String
  | .mk _ _ k _ _ _ => k

def Album.full : Album → Bool
  | .mk _ _ _ f _ _ => f

def Album.artist : Album → Artist
  | .mk _ _ _ _ a _ => a

def Album.songs : Album → SongL
  | .mk _ _ _ _ _ s => s

def Song.id : Song → String
  | .mk i _ _ _ _ _ _ => i

def Song.name : Song → String
  | .mk _ n _ _ _ _ _ => n

def Song.kind : Song → String
  | .mk _ _ k _ _ _ _ => k

def Song.full : Song → Bool
  | .mk _ _ _ f _ _ _ => f

def Song.artist : Song → Artist
  | .mk _ _ _ _ a _ _ => a

def Song.album : Song → Album
  | .mk _ _ _ _ _ a _ => a

def Song.time : Song → String
  | .mk _ _ _ _ _ _ t => t

/-- Length of a Python song list. -/
def SongL.length : SongL → Nat
  | .nil => 0
  | .cons _ t => t.length + 1

/-- Python slice `l[:n]` on a song list. -/
def SongL.take : SongL → Nat → SongL
  | _, 0 => .nil
  | .nil, _ => .nil
  | .cons h t, n + 1 => .cons h (t.take n)

/-- Length of a Python album list. -/
def AlbumL.length : AlbumL → Nat
  | .nil => 0
  | .cons _ t => t.length + 1

/-- Python slice `l[:n]` on an album list. -/
def AlbumL.take : AlbumL → Nat → AlbumL
  | _, 0 => .nil
  | .nil, _ => .nil
  | .cons h t, n + 1 => .cons h (t.take n)

/-!
API-sourced records.  In `source='api'` mode the constructors read raw
dicts from gmusicapi; keys may be absent (`Option`).  A song record's
`artistId` is, per the API, either a single string or a list of strings
(`StrOrList`).  Song records carry only scalar fields, album records
carry an optional list of song records (`tracks`), artist records carry
optional `topTracks` and `albums`, so the API record types are not
recursive.
-/

/-- The two shapes the upstream API uses for the `artistId` field of a
song record: a single string, or a list of strings. -/
inductive StrOrList where
  | scalar (s : String)
  | strList (l : List String)
deriving DecidableEq

/-- A raw API song record (dict); `none` models an absent key. -/
structure ApiSong where
  storeId : Option String
  title : Option String
  artist : Option String
  artistId : Option StrOrList
  album : Option String
  albumId : Option String
  durationMillis : Option Nat

/-- A raw API album record (dict); `none` models an absent key. -/
structure ApiAlbum where
  albumId : Option String
  name : Option String
  artist : Option String
  artistId : Option StrOrList
  tracks : Option (List ApiSong)

/-- A raw API artist record (dict); `none` models an absent key.
`artistId` of an artist record is used verbatim as the entity id
(always a single string in artist records). -/
structure ApiArtist where
  artistId : Option String
  name : Option String
  topTracks : Option (List ApiSong)
  albums : Option (List ApiAlbum)

/-- Python dict subscript `d[k]`: the value when the key is present,
`KeyError` otherwise. -/
def getKey {α : Type} (v : Option α) (key : String) : Except PyErr α :=
  match v with
  | some x => .ok x
  | none => .error (.keyError key)

/-- Python subscript `x[0]` applied to an `artistId` value.  On a string
it yields the one-character string of the first character (`IndexError`
when empty); on a list, the first element (`IndexError` when empty).
For these two shapes a `TypeError` never arises, so the
`except TypeError` fallback in `Song.__init__` is unreachable. -/
def sub0 : StrOrList → Except PyErr String
  | .scalar s =>
    match s.data with
    | [] => .error .indexError
    | c :: _ => .ok (String.mk [c])
  | .strList [] => .error .indexError
  | .strList (x :: _) => .ok x

/-- Python `str(n).zfill(2)`: left-pad a decimal rendering with zeros to
width 2. -/
def zfill2 (s : String) : String :=
  if s.length < 2 then String.mk (List.replicate (2 - s.length) (Char.ofNat 48)) ++ s
  else s

/-- `Song.time_from_ms`: milliseconds to a `"mm:ss"` string
(`ms // 60000` zero-padded, `":"`, `ms // 1000 % 60` zero-padded). -/
def Song.time_from_ms (ms : Nat) : String :=
  zfill2 (toString (ms / 60000)) ++ ":" ++ zfill2 (toString (ms / 1000 % 60))

/-!
API-mode constructors.  Each mirrors the corresponding `__init__` branch
for `source='api'`, evaluating dict subscripts in the source's order so
the first Python exception raised is the error returned.

`Artist.minApi` is the unfolding of `Artist({'name': ..., 'artistId': ...},
source='api')` on a two-key dict: both the `topTracks` and `albums`
subscripts raise `KeyError`, which the constructor catches, leaving both
collections empty; `Artist.minApi_agrees` below checks this unfolding
against the general constructor.
-/

/-- `Artist.__init__` (api mode) applied to a dict with only `artistId`
and `name`: id and name are taken verbatim, both nested collections
degrade to empty, `full=False`. -/
def Artist.minApi (id name : String) : Artist :=
  .mk id name "artist" false .nil .nil

/-- `Song.__init__` with `source='api'`.  Reads `storeId`, `title`, then
builds the minimal nested artist from `song['artist']` and
`song['artistId'][0]` (the source wraps the subscript in
`try/except TypeError`; for string-or-list ids the fallback is dead, and
an `IndexError` propagates), then the minimal nested album from
`song['album']`, `song['albumId']`, `song['artist']` and
`song['artistId'][0]` (the album dict has no `tracks` key, so its song
list degrades to empty), then `time` from `durationMillis`. -/
def Song.initApi (song : ApiSong) (full : Bool) : Except PyErr Song := do
  let storeId ← getKey song.storeId "storeId"
  let title ← getKey song.title "title"
  let artistName ← getKey song.artist "artist"
  let aid ← getKey song.artistId "artistId"
  let artistFirst ← sub0 aid
  let artistObj := Artist.minApi artistFirst artistName
  let albumName ← getKey song.album "album"
  let albumId ← getKey song.albumId "albumId"
  let albumArtistFirst ← sub0 aid
  let albumObj : Album :=
    .mk albumId albumName "album" false (Artist.minApi albumArtistFirst artistName) .nil
  let ms ← getKey song.durationMillis "durationMillis"
  .ok (.mk storeId title "song" full artistObj albumObj (Song.time_from_ms ms))

/-- The comprehension `[Song(s) for s in l]` over API song records
(each `Song(s)` with the default `full=True`): first error propagates. -/
def songsInitApi : List ApiSong → Except PyErr SongL
  | [] => .ok .nil
  | s :: t => do
    let e ← Song.initApi s true
    let rest ← songsInitApi t
    .ok (.cons e rest)

/-- `Album.__init__` with `source='api'`.  Reads `albumId`, `name`, then
builds the minimal nested artist from `album['artistId'][0]` and
`album['artist']`, then the track list from `album['tracks']` — the
source wraps the whole comprehension `[Song(s) for s in album['tracks']]`
in `try/except KeyError`, so any `KeyError` (the `tracks` key itself
missing, or a required key missing inside a nested song record) degrades
to an empty list, while other errors propagate. -/
def Album.initApi (album : ApiAlbum) (full : Bool) : Except PyErr Album := do
  let albumId ← getKey album.albumId "albumId"
  let name ← getKey album.name "name"
  let aid ← getKey album.artistId "artistId"
  let artistFirst ← sub0 aid
  let artistName ← getKey album.artist "artist"
  let songs ←
    match (do
      let ts ← getKey album.tracks "tracks"
      songsInitApi ts : Except PyErr SongL) with
    | .ok l => Except.ok l
    | .error (.keyError _) => Except.ok .nil
    | .error e => Except.error e
  .ok (.mk albumId name "album" full (Artist.minApi artistFirst artistName) songs)

/-- The comprehension `[Album(a) for a in l]` over API album records
(each `Album(a)` with the default `full=False`): first error propagates. -/
def albumsInitApi : List ApiAlbum → Except PyErr AlbumL
  | [] => .ok .nil
  | a :: t => do
    let e ← Album.initApi a false
    let rest ← albumsInitApi t
    .ok (.cons e rest)

/-- `Artist.__init__` with `source='api'`.  Reads `artistId` and `name`
verbatim, then the song list from `artist['topTracks']` and the album
list from `artist['albums']` — each comprehension is wrapped in
`try/except KeyError` in the source, so any `KeyError` raised inside it
(the collection key itself missing, or a required key missing in a
nested record) degrades to an empty list, while other errors propagate. -/
def Artist.initApi (artist : ApiArtist) (full : Bool) : Except PyErr Artist := do
  let id ← getKey artist.artistId "artistId"
  let name ← getKey artist.name "name"
  let songs ←
    match (do
      let tt ← getKey artist.topTracks "topTracks"
      songsInitApi tt : Except PyErr SongL) with
    | .ok l => Except.ok l
    | .error (.keyError _) => Except.ok .nil
    | .error e => Except.error e
  let albums ←
    match (do
      let al ← getKey artist.albums "albums"
      albumsInitApi al : Except PyErr AlbumL) with
    | .ok l => Except.ok l
    | .error (.keyError _) => Except.ok .nil
    | .error e => Except.error e
  .ok (.mk id name "artist" full songs albums)

/-- `Artist.__init__` (api mode) on a dict holding exactly `artistId` and
`name` agrees with the `Artist.minApi` unfolding used inside the Song and
Album constructors. -/
theorem Artist.minApi_agrees (id name : String) (full : Bool) :
    Artist.initApi ⟨some id, some name, none, none⟩ full = .ok (.mk id name "artist" full .nil .nil) :=
  rfl

/-!
Persisted ("json") records.  A persisted record is the entity dict
itself written out: it has the same keys, with nested entities again in
persisted shape, so the record types mirror the entity types.  The
json-mode constructors read `id`, `name` and the nested collections from
the record; `kind` is re-set to the literal kind and `full` comes from
the constructor argument, with the record's stored `kind`/`full` keys
ignored (as in the source, which never reads them in json mode).
-/

mutual
/-- A persisted artist record: the keys of an Artist dict. -/
inductive ArtistR where
  | mk (id name kind : String) (full : Bool) (songs : SongRL) (albums : AlbumRL)

/-- A persisted album record: the keys of an Album dict. -/
inductive AlbumR where
  | mk (id name kind : String) (full : Bool) (artist : ArtistR) (songs : SongRL)

/-- A persisted song record: the keys of a Song dict. -/
inductive SongR where
  | mk (id name kind : String) (full : Bool) (artist : ArtistR) (album : AlbumR)
       (time : String)

/-- A list of persisted song records. -/
inductive SongRL where
  | nil
  | cons (head : SongR) (tail : SongRL)

/-- A list of persisted album records. -/
inductive AlbumRL where
  | nil
  | cons (head : AlbumR) (tail : AlbumRL)
end

mutual
/-- `Artist.__init__` with `source='json'`: id and name from the record,
kind re-set to `'artist'`, `full` from the argument; each nested song is
parsed with `Song(song, source='json')` (default `full=True`), each
nested album with `Album(album, source='json')` (default `full=False`). -/
def Artist.initJson : ArtistR → Bool → Artist
  | .mk id name _ _ songs albums, full =>
      .mk id name "artist" full (songsInitJson songs) (albumsInitJson albums)

/-- `Album.__init__` with `source='json'`: id and name from the record,
kind `'album'`, `full` from the argument; the nested artist is parsed
with `Artist(album['artist'], source='json')` (default `full=False`). -/
def Album.initJson : AlbumR → Bool → Album
  | .mk id name _ _ artist songs, full =>
      .mk id name "album" full (Artist.initJson artist false) (songsInitJson songs)

/-- `Song.__init__` with `source='json'`: id, name and time from the
record, kind `'song'`, `full` from the argument; nested artist and album
parsed in json mode with their default `full` flags. -/
def Song.initJson : SongR → Bool → Song
  | .mk id name _ _ artist album time, full =>
      .mk id name "song" full (Artist.initJson artist false)
        (Album.initJson album false) time

/-- `[Song(song, source='json') for song in l]` (default `full=True`). -/
def songsInitJson : SongRL → SongL
  | .nil => .nil
  | .cons s t => .cons (Song.initJson s true) (songsInitJson t)

/-- `[Album(album, source='json') for album in l]` (default `full=False`). -/
def albumsInitJson : AlbumRL → AlbumL
  | .nil => .nil
  | .cons a t => .cons (Album.initJson a false) (albumsInitJson t)
end

mutual
/-- Re-serialize an Artist dict to the persisted shape: the dict is
written out key by key. -/
def Artist.toRec : Artist → ArtistR
  | .mk id name kind full songs albums =>
      .mk id name kind full (songsToRec songs) (albumsToRec albums)

/-- Re-serialize an Album dict to the persisted shape. -/
def Album.toRec : Album → AlbumR
  | .mk id name kind full artist songs =>
      .mk id name kind full (Artist.toRec artist) (songsToRec songs)

/-- Re-serialize a Song dict to the persisted shape. -/
def Song.toRec : Song → SongR
  | .mk id name kind full artist album time =>
      .mk id name kind full (Artist.toRec artist) (Album.toRec album) time

/-- Re-serialize a list of Song dicts. -/
def songsToRec : SongL → SongRL
  | .nil => .nil
  | .cons s t => .cons (Song.toRec s) (songsToRec t)

/-- Re-serialize a list of Album dicts. -/
def albumsToRec : AlbumL → AlbumRL
  | .nil => .nil
  | .cons a t => .cons (Album.toRec a) (albumsToRec t)
end

/-!
Verification predicates.  `verify` takes an arbitrary candidate dict and
checks key presence; we model the candidate by its list of keys.
`Artist.verify` and `Album.verify` check `k in item` for each required
key.  `Song.verify` as written in the source is
`all(k for k in ('id', ..., 'time'))`: it tests the truthiness of the
key strings themselves and never consults `item`, so it is faithfully
modelled as the conjunction of the non-emptiness of the seven literals.
-/

/-- `Artist.verify`: all of id, name, kind, full, songs, albums present. -/
def Artist.verify (item : List String) : Bool :=
  (["id", "name", "kind", "full", "songs", "albums"]).all fun k => item.contains k

/-- `Album.verify`: all of id, name, kind, full, artist, songs present. -/
def Album.verify (item : List String) : Bool :=
  (["id", "name", "kind", "full", "artist", "songs"]).all fun k => item.contains k

/-- `Song.verify` as written in the source: `all(k for k in (...))` — the
generator yields the key strings themselves, so each conjunct is the
truthiness (non-emptiness) of a string literal and `item` is ignored. -/
def Song.verify (item : List String) : Bool :=
  (["id", "name", "kind", "full", "artist", "album", "time"]).all fun k => !k.isEmpty

/-- The key set of any dict built by `Artist.__init__` (both modes write
exactly these keys, in this insertion order). -/
def Artist.keys : Artist → List String :=
  fun _ => ["id", "name", "kind", "full", "songs", "albums"]

/-- The key set of any dict built by `Album.__init__`. -/
def Album.keys : Album → List String :=
  fun _ => ["id", "name", "kind", "full", "artist", "songs"]

/-- The key set of any dict built by `Song.__init__`. -/
def Song.keys : Song → List String :=
  fun _ => ["id", "name", "kind", "full", "artist", "album", "time"]

/-- `MusicObject.__hash__`: `''.join(str(ord(c)) for c in self['id'])` —
the concatenation of the decimal code points of the id's characters
(note: a string, not an integer). -/
def MusicObject.hashValue (id : String) : String :=
  String.join (id.data.map fun c => toString c.toNat)

/-- `Artist.__str__`: the artist name. -/
def Artist.str (a : Artist) : String := a.name

/-- `Song.__str__`: `' - '.join((self['name'], self['artist']['name']))`. -/
def Song.str (s : Song) : String := s.name ++ " - " ++ s.artist.name

/-- `Album.__str__`: `' - '.join((self['name'], self['artist']['name']))`. -/
def Album.str (b : Album) : String := b.name ++ " - " ++ b.artist.name

/-!
Lazy fill.  `Artist.fill(func, limit)` / `Album.fill(func, limit)`
return immediately when the entity is already full; otherwise they call
the injected lookup once and rebuild the nested collections from the
returned API data, then set `full = True`.  The lookup's result is an
API dict whose collection keys may be absent (accessed directly in the
source, with no `try/except`, so a missing key is a surfaced
`KeyError`).  In-place mutation is modelled by returning the updated
entity.  The nested match chain mirrors the source's sequential
statements: the first Python exception raised is the error returned.
-/

/-- The dict returned by the artist lookup capability
(`get_artist_info` style): `topTracks` and `albums`, possibly absent. -/
structure ArtistLookup where
  topTracks : Option (List ApiSong)
  albums : Option (List ApiAlbum)

/-- The dict returned by the album lookup capability
(`get_album_info` style): `tracks`, possibly absent. -/
structure AlbumLookup where
  tracks : Option (List ApiSong)

/-- `Artist.fill`: no-op when already full; otherwise
`data = func(self['id'], max_top_tracks=limit)`, then
`self['songs'] = [Song(s) for s in data['topTracks']]`,
`self['albums'] = [Album(a) for a in data['albums']]`,
`self['full'] = True`. -/
def Artist.fill (a : Artist) (func : String → Nat → ArtistLookup) (limit : Nat) :
    Except PyErr Artist :=
  if a.full then .ok a
  else
    let data := func a.id limit
    match getKey data.topTracks "topTracks" with
    | .error e => .error e
    | .ok tt =>
      match songsInitApi tt with
      | .error e => .error e
      | .ok songs =>
        match getKey data.albums "albums" with
        | .error e => .error e
        | .ok al =>
          match albumsInitApi al with
          | .error e => .error e
          | .ok albums => .ok (.mk a.id a.name a.kind true songs albums)

/-- `Album.fill`: no-op when already full; otherwise
`self['songs'] = [Song(song) for song in func(self['id'])['tracks']]`,
`self['full'] = True` (the `limit` argument is ignored). -/
def Album.fill (b : Album) (func : String → AlbumLookup) (limit : Nat) :
    Except PyErr Album :=
  if b.full then .ok b
  else
    match getKey (func b.id).tracks "tracks" with
    | .error e => .error e
    | .ok ts =>
      match songsInitApi ts with
      | .error e => .error e
      | .ok songs => .ok (.mk b.id b.name b.kind true b.artist songs)

/-- `Song.fill`: does nothing (all songs are already full); the lookup
and limit arguments are irrelevant. -/
def Song.fill (s : Song) (func : String → AlbumLookup) (limit : Nat) : Song := s

/-!
Collect.  `collect` builds a fresh dict of three parallel lists from
whatever is currently materialized; it neither consults `full` nor calls
`fill`, and reads its receiver without modification.
-/

/-- The dict returned by `collect`: keys songs, artists, albums. -/
structure Collected where
  songs : SongL
  artists : List Artist
  albums : AlbumL

/-- `Artist.collect`: songs and albums sliced to
`[:min(len, limit)]`, artists `[self]`. -/
def Artist.collect (a : Artist) (limit : Nat) : Collected :=
  ⟨a.songs.take (min a.songs.length limit), [a],
   a.albums.take (min a.albums.length limit)⟩

/-- `Album.collect`: songs sliced to `[:min(len, limit)]`, artists
`[self['artist']]`, albums `[self]`. -/
def Album.collect (b : Album) (limit : Nat) : Collected :=
  ⟨b.songs.take (min b.songs.length limit), [b.artist], .cons b .nil⟩

/-- `Song.collect`: `[self]`, `[self['artist']]`, `[self['album']]`; the
limit is irrelevant. -/
def Song.collect (s : Song) (limit : Nat) : Collected :=
  ⟨.cons s .nil, [s.artist], .cons s.album .nil⟩

/-!
Playback.  `MusicObject.play(songs)` first checks for the per-user
`mpv_input.conf` once; when absent it calls the fatal sink
`consts.w.goodbye` and nothing further happens.  Otherwise it iterates
the songs 1-indexed: per song it resolves a stream URL, reports
progress, and invokes mpv; exit code 11 is the quit signal, on which it
returns the current index `i` when `i < len(songs)` and `None`
otherwise; when the loop completes it returns `None`.

The external environment (file presence, stream-URL resolution, mpv exit
codes) is passed in as `PlayEnv`; observable effects are recorded as a
trace.  Modelled from the spec: `consts.w.goodbye` is not under `src/`;
per the spec it is a "fatal-termination sink", so the `exited` outcome
terminates the operation with no further effects.
-/

/-- An observable external effect of `MusicObject.play`. -/
inductive PEffect where
  | checkConf
  | goodbyeCall (msg : String)
  | streamUrl (id : String)
  | nowPlaying (msg : String)
  | mpvInvoke (url : String)
deriving DecidableEq

/-- The external environment `play` runs against: whether
`~/.config/pmcli/mpv_input.conf` exists, the stream-URL resolver, and
the mpv exit code observed for the i-th (1-indexed) invocation. -/
structure PlayEnv where
  confPresent : Bool
  streamUrlOf : String → String
  exitCode : Nat → Int

/-- How a `play` call ends: fatal termination through `goodbye`, or a
normal return carrying the optional resume index. -/
inductive PlayOutcome where
  | exited (msg : String)
  | finished (resume : Option Nat)
deriving DecidableEq

/-- The progress string
`'(%d/%d) %s (%s)' % (i, len(songs), str(song), song['time'])`. -/
def nowPlayingMsg (i total : Nat) (s : Song) : String :=
  "(" ++ toString i ++ "/" ++ toString total ++ ") " ++ Song.str s
    ++ " (" ++ s.time ++ ")"

/-- The `for song in songs` loop of `MusicObject.play`, carrying the
running 1-based index `i`; `total` is the fixed `len(songs)`.  Per song:
stream-URL lookup, progress report, mpv invocation; exit code 11 stops
the loop returning `i` when `i < total` and `None` otherwise. -/
def playLoop (env : PlayEnv) (total : Nat) : Nat → SongL → List PEffect × Option Nat
  | _, .nil => ([], none)
  | i, .cons s rest =>
    let url := env.streamUrlOf s.id
    let here := [PEffect.streamUrl s.id, PEffect.nowPlaying (nowPlayingMsg i total s),
                 PEffect.mpvInvoke url]
    if env.exitCode i = 11 then
      (here, if i < total then some i else none)
    else
      let next := playLoop env total (i + 1) rest
      (here ++ next.1, next.2)

/-- `MusicObject.play`: the config-file existence check happens once, up
front; when the file is missing, `goodbye` terminates the call before
any lookup, report or player invocation; otherwise the loop runs with
`i` starting at 1. -/
def MusicObject.play (env : PlayEnv) (songs : SongL) : List PEffect × PlayOutcome :=
  if env.confPresent then
    let r := playLoop env songs.length 1 songs
    (PEffect.checkConf :: r.1, .finished r.2)
  else
    ([PEffect.checkConf, PEffect.goodbyeCall "No mpv_input.conf found."],
     .exited "No mpv_input.conf found.")

/-- Count the player invocations in a trace. -/
def countMpv : List PEffect → Nat
  | [] => 0
  | .mpvInvoke _ :: t => countMpv t + 1
  | _ :: t => countMpv t

/-- Count the effects in a trace satisfying a predicate. -/
def countWhere (p : PEffect → Bool) (l : List PEffect) : Nat :=
  (l.filter p).length

/-- Whether an effect is the config-file existence check. -/
def isCheckConf : PEffect → Bool
  | .checkConf => true
  | _ => false

/-- Whether an effect is a stream-URL lookup. -/
def isStreamUrl : PEffect → Bool
  | .streamUrl _ => true
  | _ => false

/-- Whether an effect is a progress report. -/
def isNowPlaying : PEffect → Bool
  | .nowPlaying _ => true
  | _ => false

/-- Whether an effect is an mpv invocation. -/
def isMpvInvoke : PEffect → Bool
  | .mpvInvoke _ => true
  | _ => false

/-!
Theorems.  Helper lemmas first, then one theorem per claim.
-/

mutual
/-- Parsing a persisted artist record, re-serializing the resulting
entity and reparsing with the same full flag reproduces the entity. -/
theorem artistRoundTrip : (r : ArtistR) → (full : Bool) →
    Artist.initJson (Artist.toRec (Artist.initJson r full)) full = Artist.initJson r full
  | .mk id name kind f songs albums, full => by
      simp only [Artist.initJson, Artist.toRec]
      rw [songsRoundTrip songs, albumsRoundTrip albums]

/-- Round trip for persisted album records. -/
theorem albumRoundTrip : (r : AlbumR) → (full : Bool) →
    Album.initJson (Album.toRec (Album.initJson r full)) full = Album.initJson r full
  | .mk id name kind f artist songs, full => by
      simp only [Album.initJson, Album.toRec]
      rw [artistRoundTrip artist false, songsRoundTrip songs]

/-- Round trip for persisted song records. -/
theorem songRoundTrip : (r : SongR) → (full : Bool) →
    Song.initJson (Song.toRec (Song.initJson r full)) full = Song.initJson r full
  | .mk id name kind f artist album time, full => by
      simp only [Song.initJson, Song.toRec]
      rw [artistRoundTrip artist false, albumRoundTrip album false]

/-- Round trip for lists of persisted song records. -/
theorem songsRoundTrip : (l : SongRL) →
    songsInitJson (songsToRec (songsInitJson l)) = songsInitJson l
  | .nil => rfl
  | .cons s t => by
      simp only [songsInitJson, songsToRec]
      rw [songRoundTrip s true, songsRoundTrip t]

/-- Round trip for lists of persisted album records. -/
theorem albumsRoundTrip : (l : AlbumRL) →
    albumsInitJson (albumsToRec (albumsInitJson l)) = albumsInitJson l
  | .nil => rfl
  | .cons a t => by
      simp only [albumsInitJson, albumsToRec]
      rw [albumRoundTrip a false, albumsRoundTrip t]
end

/-- `countMpv` distributes over trace concatenation. -/
theorem countMpv_append (a b : List PEffect) :
    countMpv (a ++ b) = countMpv a + countMpv b := by
  induction a with
  | nil => simp [countMpv]
  | cons h t ih =>
      cases h <;> simp [countMpv, ih]
      omega

/-- When the quit exit code is first observed at index `i` (with the
loop entered at index `i0` and song `i` within the list), the loop
returns `i` when `i < total` and `None` otherwise, and invokes the
player exactly `i - i0 + 1` times. -/
theorem playLoop_quit (env : PlayEnv) (total : Nat) :
    ∀ (l : SongL) (i0 i : Nat), i0 ≤ i → i < i0 + l.length →
      (∀ j, i0 ≤ j → j < i → env.exitCode j ≠ 11) → env.exitCode i = 11 →
      (playLoop env total i0 l).2 = (if i < total then some i else none) ∧
      countMpv (playLoop env total i0 l).1 = i - i0 + 1
  | .nil, i0, i, hle, hlt, _, _ => by
      simp [SongL.length] at hlt
      omega
  | .cons s rest, i0, i, hle, hlt, hprev, hquit => by
      by_cases heq : i = i0
      · subst heq
        simp only [playLoop, if_pos hquit]
        refine ⟨trivial, ?_⟩
        simp only [countMpv]
        omega
      · have hlt0 : i0 < i := by omega
        have hne : env.exitCode i0 ≠ 11 := hprev i0 le_rfl hlt0
        have hrest : i < i0 + 1 + rest.length := by
          simp only [SongL.length] at hlt
          omega
        have ih := playLoop_quit env total rest (i0 + 1) i (by omega) hrest
          (fun j hj1 hj2 => hprev j (by omega) hj2) hquit
        simp only [playLoop, if_neg hne]
        refine ⟨ih.1, ?_⟩
        have h2 := ih.2
        rw [countMpv_append]
        simp only [countMpv]
        omega

/-- When the quit exit code is never observed for any song of the list,
the loop plays every song and returns `None`. -/
theorem playLoop_noquit (env : PlayEnv) (total : Nat) :
    ∀ (l : SongL) (i0 : Nat),
      (∀ j, i0 ≤ j → j < i0 + l.length → env.exitCode j ≠ 11) →
      (playLoop env total i0 l).2 = none ∧
      countMpv (playLoop env total i0 l).1 = l.length
  | .nil, i0, _ => by
      simp [playLoop, countMpv, SongL.length]
  | .cons s rest, i0, h => by
      have hne : env.exitCode i0 ≠ 11 := by
        refine h i0 le_rfl ?_
        simp only [SongL.length]
        omega
      have ih := playLoop_noquit env total rest (i0 + 1)
        (fun j hj1 hj2 => by
          refine h j (by omega) ?_
          simp only [SongL.length]
          omega)
      simp only [playLoop, if_neg hne]
      refine ⟨ih.1, ?_⟩
      have h2 := ih.2
      rw [countMpv_append]
      simp only [countMpv, SongL.length]
      omega

/-- The loop itself never performs the config-file existence check. -/
theorem playLoop_no_checkConf (env : PlayEnv) (total : Nat) :
    ∀ (l : SongL) (i : Nat),
      countWhere isCheckConf (playLoop env total i l).1 = 0
  | .nil, i => by simp [playLoop, countWhere]
  | .cons s rest, i => by
      by_cases h : env.exitCode i = 11
      · simp [playLoop, if_pos h, countWhere, isCheckConf]
      · have ih := playLoop_no_checkConf env total rest (i + 1)
        simp only [playLoop, if_neg h]
        simp [countWhere, List.filter_append, isCheckConf] at ih ⊢
        exact ih

/-- C1: with the player configuration file present, if the quit exit
code (11) is first observed on the i-th song (1-indexed, i within the
list), `play` stops after exactly `i` player invocations and returns `i`
when `i` is strictly less than the list length and `None` when `i` is
the last index; and when the quit code is never observed, `play` returns
`None`. -/
theorem c1_play_quit_resume (env : PlayEnv) (songs : SongL)
    (hconf : env.confPresent = true) :
    (∀ i, 1 ≤ i → i ≤ songs.length →
      (∀ j, 1 ≤ j → j < i → env.exitCode j ≠ 11) → env.exitCode i = 11 →
      (MusicObject.play env songs).2
        = PlayOutcome.finished (if i < songs.length then some i else none) ∧
      countMpv (MusicObject.play env songs).1 = i) ∧
    ((∀ j, 1 ≤ j → j ≤ songs.length → env.exitCode j ≠ 11) →
      (MusicObject.play env songs).2 = PlayOutcome.finished none) := by
  have hplay : MusicObject.play env songs
      = (PEffect.checkConf :: (playLoop env songs.length 1 songs).1,
         PlayOutcome.finished (playLoop env songs.length 1 songs).2) := by
    simp [MusicObject.play, hconf]
  constructor
  · intro i h1 h2 hprev hquit
    have h := playLoop_quit env songs.length songs 1 i h1 (by omega) hprev hquit
    rw [hplay]
    constructor
    · exact congrArg PlayOutcome.finished h.1
    · have h2c := h.2
      simp only [countMpv]
      omega
  · intro hno
    have h := playLoop_noquit env songs.length songs 1
      (fun j hj1 hj2 => hno j hj1 (by omega))
    rw [hplay]
    exact congrArg PlayOutcome.finished h.1

/-- A concrete minimal artist entity for witnesses. -/
def artistW : Artist := .mk "ar1" "Art" "artist" false .nil .nil

/-- A concrete minimal album entity for witnesses. -/
def albumW : Album := .mk "al1" "Alb" "album" false artistW .nil

/-- A concrete song entity for witnesses. -/
def songW : Song := .mk "s1" "Track" "song" true artistW albumW "01:00"

/-- A three-song queue for witnesses. -/
def songs3 : SongL := .cons songW (.cons songW (.cons songW .nil))

/-- A play environment whose player reports the quit code on the second
invocation. -/
def envQuit2 : PlayEnv := ⟨true, fun _ => "url", fun i => if i = 2 then 11 else 0⟩

/-- Witness for C1: on a 3-song queue with the quit code on song 2,
`play` returns 2 after exactly two player invocations. -/
theorem c1_play_quit_resume_witness :
    (MusicObject.play envQuit2 songs3).2 = PlayOutcome.finished (some 2) ∧
    countMpv (MusicObject.play envQuit2 songs3).1 = 2 := by
  have h := (c1_play_quit_resume envQuit2 songs3 rfl).1 2 (by decide) (by decide)
    (fun j hj1 hj2 => by
      have hj : j = 1 := by omega
      subst hj
      decide) rfl
  exact ⟨by rw [h.1]; decide, h.2⟩

/-- C9: when the player configuration file is absent, `play` terminates
fatally through the goodbye sink before any stream-URL lookup, progress
report or player invocation; and the existence check is performed
exactly once per call, up front, whether or not the file is present. -/
theorem c9_missing_conf_fatal :
    (∀ (env : PlayEnv) (songs : SongL), env.confPresent = false →
      MusicObject.play env songs
        = ([PEffect.checkConf, PEffect.goodbyeCall "No mpv_input.conf found."],
           PlayOutcome.exited "No mpv_input.conf found.") ∧
      countWhere isStreamUrl (MusicObject.play env songs).1 = 0 ∧
      countWhere isNowPlaying (MusicObject.play env songs).1 = 0 ∧
      countWhere isMpvInvoke (MusicObject.play env songs).1 = 0 ∧
      countWhere isCheckConf (MusicObject.play env songs).1 = 1) ∧
    (∀ (env : PlayEnv) (songs : SongL),
      countWhere isCheckConf (MusicObject.play env songs).1 = 1) := by
  have habs : ∀ (env : PlayEnv) (songs : SongL), env.confPresent = false →
      MusicObject.play env songs
        = ([PEffect.checkConf, PEffect.goodbyeCall "No mpv_input.conf found."],
           PlayOutcome.exited "No mpv_input.conf found.") := by
    intro env songs h
    simp [MusicObject.play, h]
  constructor
  · intro env songs h
    refine ⟨habs env songs h, ?_, ?_, ?_, ?_⟩ <;> rw [habs env songs h] <;> rfl
  · intro env songs
    cases hc : env.confPresent with
    | false =>
        rw [habs env songs hc]
        rfl
    | true =>
        have hpres : MusicObject.play env songs
            = (PEffect.checkConf :: (playLoop env songs.length 1 songs).1,
               PlayOutcome.finished (playLoop env songs.length 1 songs).2) := by
          simp [MusicObject.play, hc]
        rw [hpres]
        have h0 := playLoop_no_checkConf env songs.length songs 1
        simp only [countWhere, List.filter] at h0 ⊢
        simp [isCheckConf, h0]

/-- A play environment with the configuration file absent. -/
def envNoConf : PlayEnv := ⟨false, fun _ => "url", fun _ => 0⟩

/-- Witness for C9: with the configuration file absent, `play` on a
3-song queue produces only the check and the goodbye call. -/
theorem c9_missing_conf_fatal_witness :
    MusicObject.play envNoConf songs3
      = ([PEffect.checkConf, PEffect.goodbyeCall "No mpv_input.conf found."],
         PlayOutcome.exited "No mpv_input.conf found.") ∧
    countWhere isStreamUrl (MusicObject.play envNoConf songs3).1 = 0 ∧
    countWhere isNowPlaying (MusicObject.play envNoConf songs3).1 = 0 ∧
    countWhere isMpvInvoke (MusicObject.play envNoConf songs3).1 = 0 ∧
    countWhere isCheckConf (MusicObject.play envNoConf songs3).1 = 1 :=
  c9_missing_conf_fatal.1 envNoConf songs3 rfl

/-- C2: for every persisted record and full flag, building the entity
with the json-mode constructor, re-serializing it to the persisted shape
and reparsing with the same json-mode constructor call yields an
identical entity — same id, name, kind, full flag, and all nested
artist/album/song relationships (structural equality of the dicts). -/
theorem c2_json_round_trip :
    (∀ (r : ArtistR) (full : Bool),
      Artist.initJson (Artist.toRec (Artist.initJson r full)) full
        = Artist.initJson r full) ∧
    (∀ (r : AlbumR) (full : Bool),
      Album.initJson (Album.toRec (Album.initJson r full)) full
        = Album.initJson r full) ∧
    (∀ (r : SongR) (full : Bool),
      Song.initJson (Song.toRec (Song.initJson r full)) full
        = Song.initJson r full) :=
  ⟨artistRoundTrip, albumRoundTrip, songRoundTrip⟩

/-- C3: `Artist.verify` and `Album.verify` check key presence and hence
accept every dict their own constructors build and reject the empty
record, and `Song.verify` accepts every Song dict — but, contrary to the
claim, `Song.verify` also accepts the empty record (it never consults
`item`: the source iterates over the key tuple itself, so every conjunct
is the truthiness of a non-empty string literal). -/
theorem c3_song_verify_ignores_record :
    Song.verify [] = true ∧
    Artist.verify [] = false ∧
    Album.verify [] = false ∧
    (∀ a : Artist, Artist.verify a.keys = true) ∧
    (∀ b : Album, Album.verify b.keys = true) ∧
    (∀ s : Song, Song.verify s.keys = true) :=
  ⟨rfl, rfl, rfl, fun _ => rfl, fun _ => rfl, fun _ => rfl⟩

/-- C4 counterexample: two artist dicts with equal ids but different
names are not equal (entities are dicts and dict equality compares every
key), refuting "two entities are equal iff their id strings are
equal". -/
theorem c4_id_equality_counterexample :
    (Artist.mk "a1" "Alice" "artist" false .nil .nil).id
      = (Artist.mk "a1" "Bob" "artist" false .nil .nil).id ∧
    Artist.mk "a1" "Alice" "artist" false .nil .nil
      ≠ Artist.mk "a1" "Bob" "artist" false .nil .nil := by
  refine ⟨rfl, fun h => ?_⟩
  injection h with h1 h2 h3 h4 h5 h6
  exact absurd h2 (by decide)

/-- C4 amended: for every entity kind (Artist, Album, Song), two
entities are equal iff all their dict entries are equal (id alone does
not suffice); the `__hash__` value depends only on the id, so entities
of each kind with equal ids hash identically, and the hash is
consistent with equality (equal entities hash identically). -/
theorem c4_equality_and_hash :
    ((∀ (i1 n1 k1 : String) (f1 : Bool) (s1 : SongL) (al1 : AlbumL)
        (i2 n2 k2 : String) (f2 : Bool) (s2 : SongL) (al2 : AlbumL),
       Artist.mk i1 n1 k1 f1 s1 al1 = Artist.mk i2 n2 k2 f2 s2 al2 ↔
         (i1 = i2 ∧ n1 = n2 ∧ k1 = k2 ∧ f1 = f2 ∧ s1 = s2 ∧ al1 = al2)) ∧
     (∀ (i1 n1 k1 : String) (f1 : Bool) (ar1 : Artist) (s1 : SongL)
        (i2 n2 k2 : String) (f2 : Bool) (ar2 : Artist) (s2 : SongL),
       Album.mk i1 n1 k1 f1 ar1 s1 = Album.mk i2 n2 k2 f2 ar2 s2 ↔
         (i1 = i2 ∧ n1 = n2 ∧ k1 = k2 ∧ f1 = f2 ∧ ar1 = ar2 ∧ s1 = s2)) ∧
     (∀ (i1 n1 k1 : String) (f1 : Bool) (ar1 : Artist) (b1 : Album) (t1 : String)
        (i2 n2 k2 : String) (f2 : Bool) (ar2 : Artist) (b2 : Album) (t2 : String),
       Song.mk i1 n1 k1 f1 ar1 b1 t1 = Song.mk i2 n2 k2 f2 ar2 b2 t2 ↔
         (i1 = i2 ∧ n1 = n2 ∧ k1 = k2 ∧ f1 = f2 ∧ ar1 = ar2 ∧ b1 = b2 ∧ t1 = t2))) ∧
    ((∀ a b : Artist, a.id = b.id →
       MusicObject.hashValue a.id = MusicObject.hashValue b.id) ∧
     (∀ a b : Album, a.id = b.id →
       MusicObject.hashValue a.id = MusicObject.hashValue b.id) ∧
     (∀ a b : Song, a.id = b.id →
       MusicObject.hashValue a.id = MusicObject.hashValue b.id)) ∧
    ((∀ a b : Artist, a = b →
       MusicObject.hashValue a.id = MusicObject.hashValue b.id) ∧
     (∀ a b : Album, a = b →
       MusicObject.hashValue a.id = MusicObject.hashValue b.id) ∧
     (∀ a b : Song, a = b →
       MusicObject.hashValue a.id = MusicObject.hashValue b.id)) := by
  refine ⟨⟨?_, ?_, ?_⟩, ⟨?_, ?_, ?_⟩, ⟨?_, ?_, ?_⟩⟩
  · intro i1 n1 k1 f1 s1 al1 i2 n2 k2 f2 s2 al2
    constructor
    · intro h
      injection h with h1 h2 h3 h4 h5 h6
      exact ⟨h1, h2, h3, h4, h5, h6⟩
    · rintro ⟨h1, h2, h3, h4, h5, h6⟩
      rw [h1, h2, h3, h4, h5, h6]
  · intro i1 n1 k1 f1 ar1 s1 i2 n2 k2 f2 ar2 s2
    constructor
    · intro h
      injection h with h1 h2 h3 h4 h5 h6
      exact ⟨h1, h2, h3, h4, h5, h6⟩
    · rintro ⟨h1, h2, h3, h4, h5, h6⟩
      rw [h1, h2, h3, h4, h5, h6]
  · intro i1 n1 k1 f1 ar1 b1 t1 i2 n2 k2 f2 ar2 b2 t2
    constructor
    · intro h
      injection h with h1 h2 h3 h4 h5 h6 h7
      exact ⟨h1, h2, h3, h4, h5, h6, h7⟩
    · rintro ⟨h1, h2, h3, h4, h5, h6, h7⟩
      rw [h1, h2, h3, h4, h5, h6, h7]
  · intro a b h
    rw [h]
  · intro a b h
    rw [h]
  · intro a b h
    rw [h]
  · intro a b h
    rw [h]
  · intro a b h
    rw [h]
  · intro a b h
    rw [h]

/-- Witness for the amended C4: for each entity kind, two concrete
entities with equal ids but different names (or times) hash
identically. -/
theorem c4_equality_and_hash_witness :
    MusicObject.hashValue (Artist.mk "a1" "Alice" "artist" false .nil .nil).id
      = MusicObject.hashValue (Artist.mk "a1" "Bob" "artist" false .nil .nil).id ∧
    MusicObject.hashValue (Album.mk "b1" "X" "album" false artistW .nil).id
      = MusicObject.hashValue (Album.mk "b1" "Y" "album" true artistW .nil).id ∧
    MusicObject.hashValue (Song.mk "s1" "X" "song" true artistW albumW "00:01").id
      = MusicObject.hashValue (Song.mk "s1" "Y" "song" true artistW albumW "00:02").id :=
  ⟨c4_equality_and_hash.2.1.1
     (Artist.mk "a1" "Alice" "artist" false .nil .nil)
     (Artist.mk "a1" "Bob" "artist" false .nil .nil) rfl,
   c4_equality_and_hash.2.1.2.1
     (Album.mk "b1" "X" "album" false artistW .nil)
     (Album.mk "b1" "Y" "album" true artistW .nil) rfl,
   c4_equality_and_hash.2.1.2.2
     (Song.mk "s1" "X" "song" true artistW albumW "00:01")
     (Song.mk "s1" "Y" "song" true artistW albumW "00:02") rfl⟩

/-- The nested artist id of a successfully constructed API song. -/
def songArtistId : Except PyErr Song → Option String
  | .ok s => some s.artist.id
  | .error _ => none

/-- The nested album's artist id of a successfully constructed API song. -/
def songAlbumArtistId : Except PyErr Song → Option String
  | .ok s => some s.album.artist.id
  | .error _ => none

/-- An API song record whose `artistId` is the scalar string `"A123"`. -/
def c5ScalarRec : ApiSong :=
  ⟨some "s1", some "Title", some "ArtistName", some (.scalar "A123"),
   some "AlbumName", some "b1", some 125000⟩

/-- C5 counterexample: on a record whose `artistId` is the scalar string
`"A123"`, construction succeeds but the nested artist (and the nested
album's artist) carries only `"A"` — the first character of the value,
because `song['artistId'][0]` subscripts the string — not the artist id
`"A123"` the claim requires. -/
theorem c5_scalar_artist_id_counterexample :
    songArtistId (Song.initApi c5ScalarRec true) = some "A" ∧
    songAlbumArtistId (Song.initApi c5ScalarRec true) = some "A" ∧
    "A" ≠ "A123" := by
  refine ⟨by decide, by decide, by decide⟩

/-- C5 amended: for an API song record with all scalar fields present,
construction accepts both `artistId` shapes without failing: when the
value is a non-empty list, the nested artist and the nested album's
artist carry its first element; when the value is a non-empty scalar
string, they carry the one-character string of its first character
(not the whole value). -/
theorem c5_artist_id_union (sid ttl an alb bid : String) (ms : Nat)
    (aid : StrOrList) :
    (∀ (x : String) (rest : List String), aid = .strList (x :: rest) →
      songArtistId (Song.initApi
        ⟨some sid, some ttl, some an, some aid, some alb, some bid, some ms⟩ true)
        = some x ∧
      songAlbumArtistId (Song.initApi
        ⟨some sid, some ttl, some an, some aid, some alb, some bid, some ms⟩ true)
        = some x) ∧
    (∀ (c : Char) (cs : List Char), aid = .scalar (String.mk (c :: cs)) →
      songArtistId (Song.initApi
        ⟨some sid, some ttl, some an, some aid, some alb, some bid, some ms⟩ true)
        = some (String.mk [c]) ∧
      songAlbumArtistId (Song.initApi
        ⟨some sid, some ttl, some an, some aid, some alb, some bid, some ms⟩ true)
        = some (String.mk [c])) := by
  constructor
  · intro x rest hx
    subst hx
    exact ⟨rfl, rfl⟩
  · intro c cs hx
    subst hx
    exact ⟨rfl, rfl⟩

/-- Witness for the amended C5: a record with `artistId = ["A9", "B7"]`
yields nested artist id `"A9"` in both places. -/
theorem c5_artist_id_union_witness :
    songArtistId (Song.initApi
      ⟨some "s1", some "T", some "N", some (.strList ["A9", "B7"]),
       some "Al", some "b1", some 61000⟩ true) = some "A9" ∧
    songAlbumArtistId (Song.initApi
      ⟨some "s1", some "T", some "N", some (.strList ["A9", "B7"]),
       some "Al", some "b1", some 61000⟩ true) = some "A9" :=
  (c5_artist_id_union "s1" "T" "N" "Al" "b1" 61000
    (.strList ["A9", "B7"])).1 "A9" ["B7"] rfl

/-- An API song record with every required key absent. -/
def c6BadSong : ApiSong := ⟨none, none, none, none, none, none, none⟩

/-- An API artist record whose `topTracks` is present but contains a
malformed song record. -/
def c6ArtistRec : ApiArtist := ⟨some "ar1", some "Name", some [c6BadSong], none⟩

/-- An API album record whose `tracks` is present but contains a
malformed song record. -/
def c6AlbumRec : ApiAlbum :=
  ⟨some "al1", some "N", some "AN", some (.strList ["x1"]), some [c6BadSong]⟩

/-- C6: constructing that song alone fails with `KeyError('storeId')`,
yet constructing an Artist (or Album) whose present nested collection
contains that malformed record succeeds with an empty song list — the
`except KeyError` around the comprehension swallows the child's error,
contrary to the claim that a present-but-malformed nested record is
never silently replaced by an empty list. -/
theorem c6_malformed_child_swallowed :
    Song.initApi c6BadSong true = .error (.keyError "storeId") ∧
    Artist.initApi c6ArtistRec false
      = .ok (.mk "ar1" "Name" "artist" false .nil .nil) ∧
    Album.initApi c6AlbumRec false
      = .ok (.mk "al1" "N" "album" false (Artist.minApi "x1" "AN") .nil) :=
  ⟨rfl, rfl, rfl⟩

/-- C7: on an entity whose full flag is true, `fill` returns the entity
unchanged without error, and its result does not depend on the lookup
capability or the limit (the lookup is never invoked); hence a second
`fill` yields the same state and Full is terminal.  `Song.fill` is
unconditionally the identity. -/
theorem c7_fill_full_noop :
    (∀ (a : Artist) (f g : String → Nat → ArtistLookup) (lim lim2 : Nat),
      a.full = true →
      Artist.fill a f lim = .ok a ∧ Artist.fill a f lim = Artist.fill a g lim2) ∧
    (∀ (b : Album) (f g : String → AlbumLookup) (lim lim2 : Nat),
      b.full = true →
      Album.fill b f lim = .ok b ∧ Album.fill b f lim = Album.fill b g lim2) ∧
    (∀ (s : Song) (f : String → AlbumLookup) (lim : Nat),
      Song.fill s f lim = s) := by
  refine ⟨?_, ?_, ?_⟩
  · intro a f g lim lim2 h
    constructor <;> simp [Artist.fill, h]
  · intro b f g lim lim2 h
    constructor <;> simp [Album.fill, h]
  · intro s f lim
    rfl

/-- A concrete full artist entity. -/
def artistFullW : Artist := .mk "aw" "AW" "artist" true .nil .nil

/-- A concrete full album entity. -/
def albumFullW : Album := .mk "bw" "BW" "album" true artistW .nil

/-- A lookup capability returning an empty artist-info dict. -/
def lookupArtistW : String → Nat → ArtistLookup := fun _ _ => ⟨none, none⟩

/-- A lookup capability returning an empty album-info dict. -/
def lookupAlbumW : String → AlbumLookup := fun _ => ⟨none⟩

/-- Witness for C7: `fill` on concrete full entities returns them
unchanged. -/
theorem c7_fill_full_noop_witness :
    Artist.fill artistFullW lookupArtistW 3 = .ok artistFullW ∧
    Album.fill albumFullW lookupAlbumW 3 = .ok albumFullW :=
  ⟨(c7_fill_full_noop.1 artistFullW lookupArtistW lookupArtistW 3 3 rfl).1,
   (c7_fill_full_noop.2.1 albumFullW lookupAlbumW lookupAlbumW 3 3 rfl).1⟩

/-- Python slicing truncates exactly: `len(l[:n]) == min(n, len(l))`. -/
theorem songL_length_take : ∀ (l : SongL) (n : Nat),
    (l.take n).length = min n l.length
  | .nil, 0 => rfl
  | .cons _ _, 0 => rfl
  | .nil, n + 1 => rfl
  | .cons h t, n + 1 => by
      simp only [SongL.take, SongL.length, songL_length_take t n]
      omega

/-- Python slicing truncates exactly on album lists. -/
theorem albumL_length_take : ∀ (l : AlbumL) (n : Nat),
    (l.take n).length = min n l.length
  | .nil, 0 => rfl
  | .cons _ _, 0 => rfl
  | .nil, n + 1 => rfl
  | .cons h t, n + 1 => by
      simp only [AlbumL.take, AlbumL.length, albumL_length_take t n]
      omega

/-- C8: `collect` is a pure projection of the entity — for every entity
and limit it returns exactly the three parallel lists the source
prescribes per kind (Song: `[self]`, `[self.artist]`, `[self.album]`
with the limit ignored; Album: songs truncated, `[self.artist]`,
`[self]`; Artist: songs and albums truncated, `[self]`), with exact
truncation `len(result.songs) = min(len(source.songs), limit)`; being a
pure function of the entity it neither mutates it nor invokes `fill`
(whose call would appear in its definition and in its `Except` result
type). -/
theorem c8_collect_shape (a : Artist) (b : Album) (s : Song)
    (limit limit2 : Nat) :
    Artist.collect a limit
      = ⟨a.songs.take (min a.songs.length limit), [a],
         a.albums.take (min a.albums.length limit)⟩ ∧
    (Artist.collect a limit).songs.length = min a.songs.length limit ∧
    (Artist.collect a limit).albums.length = min a.albums.length limit ∧
    Album.collect b limit
      = ⟨b.songs.take (min b.songs.length limit), [b.artist], .cons b .nil⟩ ∧
    (Album.collect b limit).songs.length = min b.songs.length limit ∧
    Song.collect s limit = ⟨.cons s .nil, [s.artist], .cons s.album .nil⟩ ∧
    Song.collect s limit = Song.collect s limit2 := by
  refine ⟨rfl, ?_, ?_, rfl, ?_, rfl, rfl⟩
  · simp only [Artist.collect, songL_length_take]
    omega
  · simp only [Artist.collect, albumL_length_take]
    omega
  · simp only [Album.collect, songL_length_take]
    omega

/-- C10: a successful `fill` changes only the nested collection fields
and the full flag: the id, name and kind are preserved, and for an Album
the nested minimal artist is preserved as well. -/
theorem c10_fill_frame :
    (∀ (a a2 : Artist) (f : String → Nat → ArtistLookup) (lim : Nat),
      Artist.fill a f lim = .ok a2 →
      a2.id = a.id ∧ a2.name = a.name ∧ a2.kind = a.kind) ∧
    (∀ (b b2 : Album) (f : String → AlbumLookup) (lim : Nat),
      Album.fill b f lim = .ok b2 →
      b2.id = b.id ∧ b2.name = b.name ∧ b2.kind = b.kind ∧
        b2.artist = b.artist) := by
  constructor
  · intro a a2 f lim h
    unfold Artist.fill at h
    split at h
    · injection h with h2
      subst h2
      exact ⟨rfl, rfl, rfl⟩
    · dsimp only at h
      split at h
      · cases h
      · split at h
        · cases h
        · split at h
          · cases h
          · split at h
            · cases h
            · injection h with h2
              subst h2
              exact ⟨rfl, rfl, rfl⟩
  · intro b b2 f lim h
    unfold Album.fill at h
    split at h
    · injection h with h2
      subst h2
      exact ⟨rfl, rfl, rfl, rfl⟩
    · split at h
      · cases h
      · split at h
        · cases h
        · injection h with h2
          subst h2
          exact ⟨rfl, rfl, rfl, rfl⟩

/-- A concrete partial artist for the C10 witness. -/
def artistPartW : Artist := .mk "ap" "AP" "artist" false .nil .nil

/-- A concrete partial album for the C10 witness. -/
def albumPartW : Album := .mk "bp" "BP" "album" false artistW .nil

/-- A lookup capability returning empty artist collections. -/
def lookupArtistEmptyW : String → Nat → ArtistLookup := fun _ _ => ⟨some [], some []⟩

/-- A lookup capability returning an empty track list. -/
def lookupAlbumEmptyW : String → AlbumLookup := fun _ => ⟨some []⟩

/-- Witness for C10: concrete successful fills preserve id, name, kind
(and the album's nested artist). -/
theorem c10_fill_frame_witness :
    ((Artist.mk "ap" "AP" "artist" true .nil .nil).id = artistPartW.id ∧
     (Artist.mk "ap" "AP" "artist" true .nil .nil).name = artistPartW.name ∧
     (Artist.mk "ap" "AP" "artist" true .nil .nil).kind = artistPartW.kind) ∧
    ((Album.mk "bp" "BP" "album" true artistW .nil).id = albumPartW.id ∧
     (Album.mk "bp" "BP" "album" true artistW .nil).name = albumPartW.name ∧
     (Album.mk "bp" "BP" "album" true artistW .nil).kind = albumPartW.kind ∧
     (Album.mk "bp" "BP" "album" true artistW .nil).artist = albumPartW.artist) :=
  ⟨c10_fill_frame.1 artistPartW (.mk "ap" "AP" "artist" true .nil .nil)
     lookupArtistEmptyW 5 rfl,
   c10_fill_frame.2 albumPartW (.mk "bp" "BP" "album" true artistW .nil)
     lookupAlbumEmptyW 5 rfl⟩

end GPMusic
